import Mathlib

set_option maxRecDepth 8000

/-!
Verification of the StoryQuest backend core against its specification.

This file shallowly embeds the parts of the backend that the checked claims
talk about:

* `app/services/safety_filter_enhanced.py` — `EnhancedSafetyFilter`
  (`filter_user_input`, `validate_llm_output`, `_analyze_sentiment`,
  `get_fallback_response`, `get_violation_summary`);
* `app/services/story_engine.py` — `StoryEngine`
  (`start_story`, `continue_story`, `_call_llm_with_retry`,
  `_get_fallback_llm_response`);
* `app/api/v1/story.py` — the `/continue/stream` endpoint body
  (`continue_story_stream`, the part after the rate-limit checks);
* `app/services/rate_limiter.py` — `RateLimiter`
  (`_cleanup_old_entries`, `check_session_rate_limit`,
  `check_custom_input_rate_limit`).

Modelling conventions:

* Python strings are Lean `String`s; `str.lower`/`str.split()`/`str.strip()`
  and `re.sub(r'[^\w\s]', '', w)` are modelled character-by-character for the
  ASCII alphabet (all words in the filter word lists are ASCII).
* The regex sweep of `filter_user_input` (URL/email/phone/... patterns) and
  the external moderation oracle are opaque to every claim below, so they are
  parameters of the model (`FilterCfg.patternHit`, `FilterCfg.modFlagged`);
  everything else is translated from the source.
* Python floats in `_analyze_sentiment` are modelled as rationals; every
  weight is an exact multiple of 1/10 and the claims concern only the
  strictness of the `< -0.3` comparison and the exact 0.0 default.
* `time.time()` timestamps are modelled as integers.
* The database session is modelled as an explicit `Store` value threaded
  through the functions; SQLAlchemy mutations plus `commit` become the
  returned updated `Store`.
* The asynchronous generation backend is an oracle `Nat → LLMAttempt`
  giving the outcome of each attempt (transport failure or a parsed
  response), mirroring `generate_story_continuation` which either raises
  or returns an `LLMStoryResponse`.
-/

/-! ## Basic string machinery -/

/-- Does the first list occur at the start of the second?  (`str.startswith`.) -/
def startsL : List Char → List Char → Bool
  | [], _ => true
  | _ :: _, [] => false
  | p :: ps, c :: cs => p == c && startsL ps cs

/-- Does the first list occur somewhere inside the second?
(Python's `in` on strings.) -/
def subL (p : List Char) : List Char → Bool
  | [] => startsL p []
  | c :: cs => startsL p (c :: cs) || subL p cs

/-- `needle in hay` for strings. -/
def strHas (needle hay : String) : Bool := subL needle.toList hay.toList

/-- `hay.startswith(needle)`. -/
def strStarts (hay needle : String) : Bool := startsL needle.toList hay.toList

/-- `hay.endswith(needle)`. -/
def strEnds (hay needle : String) : Bool :=
  startsL needle.toList.reverse hay.toList.reverse

/-- `str.lower()` (ASCII). -/
def lowerStr (s : String) : String := ⟨s.toList.map Char.toLower⟩

/-- Helper for `splitWS`: accumulates the current (reversed) word. -/
def splitWSAux : List Char → List Char → List (List Char)
  | cur, [] => if cur.isEmpty then [] else [cur.reverse]
  | cur, c :: cs =>
    if c.isWhitespace then
      if cur.isEmpty then splitWSAux [] cs else cur.reverse :: splitWSAux [] cs
    else splitWSAux (c :: cur) cs

/-- Python `str.split()` with no argument: split on whitespace runs,
dropping empty pieces. -/
def splitWS (l : List Char) : List (List Char) := splitWSAux [] l

/-- `re.sub(r'[^\w\s]', '', w)`: drop every character that is neither a word
character (`[A-Za-z0-9_]`) nor whitespace. -/
def cleanWord (w : List Char) : List Char :=
  w.filter (fun c => c.isAlphanum || c == '_' || c.isWhitespace)

/-- The lowercased whitespace-separated words of a text
(`text.lower().split()`). -/
def wordsOf (s : String) : List (List Char) := splitWS (s.toList.map Char.toLower)

/-- `text.strip()`. -/
def stripStr (s : String) : String :=
  ⟨((s.toList.dropWhile Char.isWhitespace).reverse.dropWhile Char.isWhitespace).reverse⟩

/-- Python truthiness of an `Optional[str]`: non-`None` and non-empty. -/
def optTruthy : Option String → Bool
  | some s => !(s == "")
  | none => false

/-- Python `a or b` on strings: `a` if non-empty, else `b`. -/
def orElseStr (a b : String) : String := if a == "" then b else a

/-! ## Safety filter data (`EnhancedSafetyFilter._load_*`) -/

/-- The banned-word list of `_load_banned_words` (already lowercase). -/
def bannedWords : List String := [
  -- Violence and aggression
  "kill", "murder", "death", "die", "dead", "dying", "killed",
  "blood", "gore", "wound", "injury", "hurt", "pain", "suffer",
  "weapon", "gun", "rifle", "pistol", "shoot", "shot",
  "knife", "stab", "blade", "dagger",
  "sword", "axe", "spear",
  "bomb", "explode", "explosion",
  "fight", "attack", "punch", "kick", "hit", "strike",
  "war", "battle", "combat", "destroy", "destruction",
  -- Fear and horror
  "scary", "terrify", "terror", "fear", "afraid", "frightening",
  "horror", "horrify", "nightmare", "dread",
  "monster", "beast", "creature", "demon", "devil",
  "ghost", "spirit", "haunted", "spooky",
  "zombie", "vampire", "werewolf", "undead",
  "evil", "wicked", "sinister", "dark", "darkness",
  -- Negative and harmful
  "hate", "hatred", "despise", "loathe",
  "stupid", "idiot", "dumb", "moron", "fool",
  "ugly", "hideous", "disgusting", "gross",
  "bad", "terrible", "awful", "horrible",
  "steal", "thief", "rob", "robbery",
  "lie", "liar", "cheat", "deceive",
  "bully", "mean", "cruel", "nasty",
  -- Mild profanity
  "hell", "damn", "dammit", "crap", "suck",
  -- Danger and risk
  "danger", "dangerous", "hazard", "peril",
  "poison", "toxic", "venom",
  "trap", "trapped", "capture", "caught",
  "lost", "alone", "abandoned", "stranded",
  -- Sadness (excessive)
  "depressed", "depression", "miserable", "hopeless",
  "despair", "anguish", "agony", "torment"]

/-- `_load_age_inappropriate_words`, as a lookup on the age-range key. -/
def ageBanned (ageRange : String) : List String :=
  if ageRange == "6-8" then
    ["sacrifice", "betrayal", "revenge", "conspiracy",
     "politics", "war", "battle", "conflict",
     "complex", "complicated", "sophisticated",
     "abstract", "theoretical", "philosophical"]
  else if ageRange == "9-12" then
    ["suicide", "depression", "mental", "therapy",
     "romantic", "love", "dating", "relationship"]
  else []

/-- `age_range in self.age_inappropriate_words`. -/
def ageKeyKnown (ageRange : String) : Bool :=
  ageRange == "6-8" || ageRange == "9-12"

/-- Negative sentiment indicators of `_analyze_sentiment`.  Every weight in
the source is an exact multiple of `0.1`, so weights are stored here scaled
by 10 (`-3` stands for `-0.3`); `analyzeSentiment` below divides the scale
back out, producing the exact rational value of the float expression. -/
def negLex : List (String × Int) := [
  ("sad", -3), ("cry", -3), ("crying", -3), ("tears", -2),
  ("afraid", -4), ("scared", -4), ("fear", -4), ("frightened", -4),
  ("worried", -2), ("anxious", -2), ("nervous", -2),
  ("lonely", -4), ("alone", -3), ("lost", -4),
  ("angry", -3), ("mad", -3), ("upset", -2),
  ("fail", -3), ("failed", -3), ("failure", -3),
  ("wrong", -2), ("mistake", -2), ("error", -2),
  ("dark", -2), ("darkness", -3), ("shadow", -2),
  ("cold", -1), ("rain", -1), ("storm", -2)]

/-- Positive sentiment indicators of `_analyze_sentiment`, scaled by 10
(`4` stands for `0.4`). -/
def posLex : List (String × Int) := [
  ("happy", 4), ("joy", 4), ("joyful", 4), ("cheerful", 4),
  ("fun", 3), ("exciting", 4), ("excited", 4),
  ("wonderful", 4), ("amazing", 4), ("awesome", 4),
  ("beautiful", 3), ("pretty", 3), ("lovely", 3),
  ("kind", 3), ("friendly", 3), ("helpful", 3),
  ("brave", 4), ("courageous", 4), ("strong", 3),
  ("clever", 3), ("smart", 3), ("wise", 3),
  ("discover", 3), ("explore", 3), ("adventure", 4),
  ("friend", 3), ("together", 2), ("help", 2),
  ("smile", 3), ("laugh", 4), ("giggle", 4),
  ("bright", 2), ("sunshine", 3), ("rainbow", 3)]

/-- Weight lookup in a sentiment lexicon. -/
def lookupLex (lex : List (String × Int)) (w : String) : Option Int :=
  (lex.find? (fun p => p.1 == w)).map Prod.snd

/-- One step of the sentiment accumulation loop: running
`(score * 10, word_count)` updated by one word of the text. -/
def sentimentStep (acc : Int × Nat) (w : List Char) : Int × Nat :=
  let cw : String := ⟨cleanWord w⟩
  match lookupLex negLex cw with
  | some q => (acc.1 + q, acc.2 + 1)
  | none =>
    match lookupLex posLex cw with
    | some q => (acc.1 + q, acc.2 + 1)
    | none => acc

/-- `max(min(x, 1.0), -1.0)`. -/
def clampQ (q : ℚ) : ℚ := if q ≤ 1 then (if -1 ≤ q then q else -1) else 1

/-- `EnhancedSafetyFilter._analyze_sentiment`: sum the weights of lexicon
words, normalize by their count, clamp to `[-1, 1]`; `0` if the text has no
lexicon words.  With the tenths scaling of the lexicons, the normalized
score `score / word_count` is the exact rational
`mkRat tenths (10 * word_count)` (see `analyzeSentiment_div_repr`). -/
def analyzeSentiment (text : String) : ℚ :=
  let r := (wordsOf text).foldl sentimentStep (0, 0)
  if 0 < r.2 then clampQ (mkRat r.1 (10 * r.2)) else 0

/-! ## Violations and the output validator -/

/-- `ViolationType`. -/
inductive VType
  | bannedWord
  | inappropriatePat
  | negativeSentiment
  | moderationApi
  | ageInappropriate
  | tooComplex
deriving DecidableEq, Repr

/-- A logged `SafetyViolation` (the fields the claims depend on). -/
structure VRec where
  vtype : VType
  severity : String
deriving DecidableEq, Repr

/-- The banned-word test applied by `validate_llm_output` to one candidate
word `w` against the lowercased text `sl`:
`f" {word} " in f" {text_lower} " or text_lower.startswith(word) or
text_lower.endswith(word)`. -/
def hitW (sl w : String) : Bool :=
  strHas (" " ++ w ++ " ") (" " ++ sl ++ " ") || strStarts sl w || strEnds sl w

/-- First banned word that `hitW` detects in the lowercased text `sl`. -/
def firstHit (ws : List String) (sl : String) : Option String :=
  ws.find? (hitW sl)

/-- The scan of the choice list in `validate_llm_output`: first choice whose
lowercased text triggers a banned-word hit (`if choices:` makes the empty
list skip the loop, which `findSome?` on `[]` also does). -/
def choiceHit (choices : List String) : Option String :=
  choices.findSome? (fun c => firstHit bannedWords (lowerStr c))

/-- Does the text contain an age-inappropriate word for this age range
(punctuation-stripped word membership, as in the Python scan)? -/
def ageScanHit (ageRange : String) (text : String) : Bool :=
  (wordsOf text).any (fun w => (ageBanned ageRange).contains (⟨cleanWord w⟩ : String))

/-- `EnhancedSafetyFilter.validate_llm_output` (violation logging aside):
banned-word scan over the scene, then over each choice, then the sentiment
threshold, then the age-vocabulary scan, then the optional moderation oracle.
`none` means valid. `useModeration`/`modFlagged` stand for the configured
moderation oracle and its verdict (`false` covers both a safe verdict and
the fail-open transport-error case). -/
def validateLLMOutput (sceneText : String) (choices : List String)
    (ageRange : Option String) (useModeration modFlagged : Bool) : Option VRec :=
  match firstHit bannedWords (lowerStr sceneText) with
  | some _ => some ⟨.bannedWord, "high"⟩
  | none =>
    match choiceHit choices with
    | some _ => some ⟨.bannedWord, "high"⟩
    | none =>
      if analyzeSentiment sceneText < mkRat (-3) 10 then
        -- `sentiment_score < -0.3`; `mkRat (-3) 10 = -(3/10)`, see
        -- `threshold_eq_div`
        some ⟨.negativeSentiment, "medium"⟩
      else
        match ageRange with
        | some a =>
          if ageKeyKnown a && ageScanHit a sceneText then
            some ⟨.ageInappropriate, "medium"⟩
          else if useModeration && modFlagged then some ⟨.moderationApi, "high"⟩
          else none
        | none =>
          if useModeration && modFlagged then some ⟨.moderationApi, "high"⟩
          else none

/-! ## Input filter (`filter_user_input`) -/

/-- Configuration of the filter: the regex sweep and the moderation oracle
are opaque to the claims and appear as parameters; `logViolations` is the
constructor flag of the same name. -/
structure FilterCfg where
  patternHit : String → Bool
  useModeration : Bool
  modFlagged : Bool
  logViolations : Bool

/-- Result of `filter_user_input`: `(is_safe, sanitized_text_or_reason)`. -/
inductive FilterOut
  | rejected (reason : String)
  | accepted (sanitized : String)
deriving DecidableEq, Repr

/-- ASCII apostrophe, for reproducing source strings verbatim. -/
def apos : String := (Char.ofNat 39).toString

/-- `EnhancedSafetyFilter.filter_user_input`, threading the violation log
explicitly.  The empty/too-long rejections build a violation but do not
append it to the log; the pattern, banned-word, age and moderation
rejections append when `logViolations` is set. -/
def filterUserInput (cfg : FilterCfg) (log : List VRec) (text : String)
    (ageRange : Option String) : FilterOut × List VRec :=
  if text.toList.all Char.isWhitespace then
    -- `not text or not text.strip()` — violation constructed, never logged
    (.rejected "Input cannot be empty", log)
  else if 200 < text.length then
    -- length violation constructed, never logged
    (.rejected "Input too long (max 200 characters)", log)
  else
    let sanitized := stripStr text
    if cfg.patternHit sanitized then
      (.rejected ("Please don" ++ apos ++ "t include personal information, links, or contact details"),
       if cfg.logViolations then log ++ [⟨.inappropriatePat, "high"⟩] else log)
    else if (wordsOf sanitized).any
        (fun w => bannedWords.contains (⟨cleanWord w⟩ : String)) then
      (.rejected ("Let" ++ apos ++ "s use kinder words in our story"),
       if cfg.logViolations then log ++ [⟨.bannedWord, "high"⟩] else log)
    else
      match ageRange with
      | some a =>
        if (!(a == "")) && ageKeyKnown a && ageScanHit a sanitized then
          (.rejected ("Let" ++ apos ++ "s use simpler, more fun ideas for our story!"),
           if cfg.logViolations then log ++ [⟨.ageInappropriate, "medium"⟩] else log)
        else if cfg.useModeration && cfg.modFlagged then
          (.rejected ("Let" ++ apos ++ "s try a different idea for our adventure!"),
           if cfg.logViolations then log ++ [⟨.moderationApi, "high"⟩] else log)
        else (.accepted sanitized, log)
      | none =>
        if cfg.useModeration && cfg.modFlagged then
          (.rejected ("Let" ++ apos ++ "s try a different idea for our adventure!"),
           if cfg.logViolations then log ++ [⟨.moderationApi, "high"⟩] else log)
        else (.accepted sanitized, log)

/-- Total count reported by `get_violation_summary`. -/
def violationSummaryTotal (log : List VRec) : Nat := log.length

/-- Per-kind count reported by `get_violation_summary` (`by_type`). -/
def violationSummaryByType (log : List VRec) (t : VType) : Nat :=
  (log.filter (fun v => v.vtype == t)).length

/-! ## Fallback response (`get_fallback_response`, `_get_fallback_llm_response`) -/

/-- Helper for `titleCase`: the boolean records whether the previous
character was alphabetic (Python: cased). -/
def titleAux : Bool → List Char → List Char
  | _, [] => []
  | prevAlpha, c :: cs =>
    if c.isAlpha then
      (if prevAlpha then c.toLower else c.toUpper) :: titleAux true cs
    else c :: titleAux false cs

/-- Python `str.title()` (ASCII): uppercase a letter that follows a
non-letter, lowercase the rest. -/
def titleCase (s : String) : String := ⟨titleAux false s.toList⟩

/-- `theme.replace("_", " ")`. -/
def replaceUnderscores (s : String) : String :=
  ⟨s.toList.map (fun c => if c == '_' then ' ' else c)⟩

/-- `EnhancedSafetyFilter.get_fallback_response`. -/
def getFallbackResponse (theme : String) : String × List String :=
  let themeReadable := titleCase (replaceUnderscores theme)
  ("You find yourself in a wonderful, magical place on your " ++ themeReadable
     ++ " adventure. Everything around you is peaceful, colorful, inviting, and filled with amazing possibilities!",
   ["Look around at the beautiful scenery",
    "Take a happy deep breath and think",
    "Choose a fun direction to explore"])

/-- The parsed shape of a generation-backend response (`LLMStoryResponse`).
`choices` is `Optional[List[str]]` in the source; `[]` models both `None`
and the empty list, which Python treats identically (`if choices:` /
`choices or []`). -/
structure LLMStoryResponse where
  sceneText : String
  choices : List String
  storySummaryUpdate : String
deriving DecidableEq, Repr

/-- `StoryEngine._get_fallback_llm_response`. -/
def fallbackLLMResponse (theme : String) : LLMStoryResponse :=
  { sceneText := (getFallbackResponse theme).1
    choices := (getFallbackResponse theme).2
    storySummaryUpdate := "The adventure continues in a safe and peaceful way." }

/-! ## Retry loop (`StoryEngine._call_llm_with_retry`) -/

/-- Outcome of one generation-backend attempt: a raised transport failure or
a parsed response. -/
inductive LLMAttempt
  | throws
  | returns (resp : LLMStoryResponse)
deriving DecidableEq, Repr

/-- The validity test the engine applies to a backend response:
`validate_llm_output(scene_text, choices)` with no age range, truthy iff
no violation.  The moderation flags are those of the engine-constructed
filter (`use_moderation_api=False` by default). -/
def validLLM (r : LLMStoryResponse) : Bool :=
  (validateLLMOutput r.sceneText r.choices none false false).isNone

/-- The body of `_call_llm_with_retry`, recursing over the remaining
attempts.  At `(fuel + 1, i)` the loop is at 0-based attempt `i` with
`fuel` further attempts allowed after it (`fuel = 0` iff
`attempt == max_retries - 1`).  Returns
`(response, backoff waits in seconds, number of backend calls made)`.
Falling out of the loop yields the fallback with no further calls. -/
def retryGo (validf : LLMStoryResponse → Bool) (backend : Nat → LLMAttempt)
    (theme : String) : Nat → Nat → LLMStoryResponse × List Nat × Nat
  | 0, _ => (fallbackLLMResponse theme, [], 0)
  | fuel + 1, i =>
    match backend i with
    | .returns r =>
      if validf r then (r, [], 1)
      else if fuel == 0 then (fallbackLLMResponse theme, [], 1)
      else
        let rec' := retryGo validf backend theme fuel (i + 1)
        (rec'.1, rec'.2.1, rec'.2.2 + 1)
    | .throws =>
      if fuel == 0 then
        let rec' := retryGo validf backend theme fuel (i + 1)
        (rec'.1, rec'.2.1, rec'.2.2 + 1)
      else
        let rec' := retryGo validf backend theme fuel (i + 1)
        (rec'.1, 2 ^ i :: rec'.2.1, rec'.2.2 + 1)

/-- `StoryEngine._call_llm_with_retry` with `max_retries = n`. -/
def callLLMWithRetry (validf : LLMStoryResponse → Bool)
    (backend : Nat → LLMAttempt) (n : Nat) (theme : String) :
    LLMStoryResponse × List Nat × Nat :=
  retryGo validf backend theme n 0

/-! ## Persistence model and the story engine -/

/-- A `Session` row (`app/db/models.py`), with the UUID abstracted to `Nat`. -/
structure Sess where
  sid : Nat
  playerName : String
  ageRange : String
  theme : String
  turns : Nat
  isActive : Bool
deriving DecidableEq, Repr

/-- A `StoryTurn` row. -/
structure TurnRec where
  sessionId : Nat
  turnNumber : Nat
  sceneText : String
  sceneId : String
  playerChoice : Option String
  customInput : Option String
  storySummary : String
deriving DecidableEq, Repr

/-- The database state the claims observe. -/
structure Store where
  sessions : List Sess
  turnLog : List TurnRec
deriving DecidableEq, Repr

/-- `db_session.get(SessionModel, session_id)`. -/
def lookupSess (st : Store) (sid : Nat) : Option Sess :=
  st.sessions.find? (fun s => s.sid == sid)

/-- In-place mutation of the session row with the given id, then commit. -/
def updateSess (st : Store) (sid : Nat) (f : Sess → Sess) : Store :=
  { st with sessions := st.sessions.map (fun s => if s.sid == sid then f s else s) }

/-- The error classes `continue_story` can raise (each a `ValueError` in the
source; the spec calls the first three `InvalidState` and the last two
`ValidationError`). -/
inductive ContinueErr
  | sessionNotFound
  | sessionInactive
  | maxTurnsReached
  | inputRejected (reason : String)
  | choiceRequired
deriving DecidableEq, Repr

/-- Does this error belong to the spec's `InvalidState` class? -/
def isInvalidState : ContinueErr → Bool
  | .sessionNotFound => true
  | .sessionInactive => true
  | .maxTurnsReached => true
  | _ => false

/-- A `Choice` sent to the client. -/
structure ChoiceOut where
  choiceId : String
  text : String
deriving DecidableEq, Repr

/-- `StoryResponse` (the fields the claims observe). -/
structure StoryResp where
  sessionId : Nat
  storySummary : String
  sceneId : String
  sceneText : String
  choices : List ChoiceOut
  turns : Nat
deriving DecidableEq, Repr

/-- `[Choice(choice_id=f"c{i+1}", text=t) for i, t in enumerate(cs)]`. -/
def mkChoices (cs : List String) : List ChoiceOut :=
  cs.enum.map (fun p => ⟨"c" ++ toString (p.1 + 1), p.2⟩)

/-- `StoryEngine.continue_story`.  Returns the result (or raised error),
the database state after the call, and the number of generation-backend
invocations.  `cfg` configures the engine's safety filter; the filter's own
violation log is not observed by the claims about this function. -/
def continueStory (cfg : FilterCfg) (backend : Nat → LLMAttempt)
    (maxRetries maxTurns : Nat) (st : Store) (sid : Nat)
    (choiceId choiceText customInput : Option String) (_storySummary : String) :
    Except ContinueErr StoryResp × Store × Nat :=
  match lookupSess st sid with
  | none => (.error .sessionNotFound, st, 0)
  | some s =>
    if s.isActive = false then (.error .sessionInactive, st, 0)
    else if maxTurns ≤ s.turns then (.error .maxTurnsReached, st, 0)
    else
      -- resolve the player action (Python truthiness on the optionals)
      let act? : Except ContinueErr String :=
        if optTruthy customInput then
          match (filterUserInput cfg [] (customInput.getD "") none).1 with
          | .rejected r => .error (.inputRejected ("Input rejected: " ++ r))
          | .accepted sanitized => .ok sanitized
        else if optTruthy choiceId then
          .ok (if optTruthy choiceText then choiceText.getD ""
               else "Choice " ++ choiceId.getD "")
        else .error .choiceRequired
      match act? with
      | .error e => (.error e, st, 0)
      | .ok _playerAction =>
        let gen := callLLMWithRetry validLLM backend maxRetries s.theme
        let resp := gen.1
        let calls := gen.2.2
        let newTurn := s.turns + 1
        let sceneId := "scene_" ++ toString sid ++ "_" ++ toString newTurn
        let turnRec : TurnRec :=
          ⟨sid, newTurn, resp.sceneText, sceneId, choiceId, customInput,
           resp.storySummaryUpdate⟩
        let st1 := updateSess st sid (fun s0 => { s0 with turns := newTurn })
        let st2 := { st1 with turnLog := st1.turnLog ++ [turnRec] }
        (.ok { sessionId := sid, storySummary := resp.storySummaryUpdate,
               sceneId := sceneId, sceneText := resp.sceneText,
               choices := mkChoices resp.choices, turns := newTurn },
         st2, calls)

/-- `StoryEngine.start_story` (the session/turn persistence part; the
generated UUID is the supplied `sid`). -/
def startStory (backend : Nat → LLMAttempt) (maxRetries : Nat) (st : Store)
    (sid : Nat) (playerName ageRange theme : String) :
    StoryResp × Store × Nat :=
  let s : Sess := ⟨sid, playerName, ageRange, theme, 0, true⟩
  let gen := callLLMWithRetry validLLM backend maxRetries theme
  let resp := gen.1
  let sceneId := "scene_" ++ toString sid ++ "_0"
  let turnRec : TurnRec :=
    ⟨sid, 0, resp.sceneText, sceneId, none, none, resp.storySummaryUpdate⟩
  ({ sessionId := sid, storySummary := resp.storySummaryUpdate,
     sceneId := sceneId, sceneText := resp.sceneText,
     choices := mkChoices resp.choices, turns := 0 },
   { sessions := st.sessions ++ [s], turnLog := st.turnLog ++ [turnRec] },
   gen.2.2)

/-! ## The `/continue/stream` endpoint (`continue_story_stream`) -/

/-- The final server-sent event of the stream: an error event or the
`complete` event (the fields the claims observe). -/
inductive StreamOut
  | errorEvent (msg : String)
  | complete (choices : List ChoiceOut) (turns maxTurns : Nat)
      (isFinished : Bool) (sceneText storySummary : String)
deriving DecidableEq, Repr

/-- The body of `continue_story_stream` after its rate-limit checks.
`maxTurns` is the value of `compute_max_turns(session_id)` (defined in the
repository outside the provided sources; no claim depends on its value) and
`parsed` is the outcome of accumulating and parsing the stream
(`none` = `_parse_llm_response` raised). -/
def continueStoryStream (st : Store) (maxTurns : Nat) (sid : Nat)
    (choiceId _choiceText customInput : Option String) (storySummary : String)
    (parsed : Option LLMStoryResponse) : StreamOut × Store :=
  match lookupSess st sid with
  | none => (.errorEvent "Session not found", st)
  | some s =>
    if s.isActive = false then (.errorEvent "Session is no longer active", st)
    else
      let nextTurn := s.turns + 1
      if maxTurns ≤ s.turns then
        (.errorEvent "This story has already reached its ending.", st)
      else
        match parsed with
        | none => (.errorEvent "Failed to parse story response", st)
        | some r =>
          let outChoices :=
            if nextTurn < maxTurns && !r.choices.isEmpty then mkChoices r.choices
            else []
          let updatedSummary := orElseStr r.storySummaryUpdate (orElseStr storySummary "")
          let isFinished := decide (maxTurns ≤ nextTurn)
          let sceneId := "scene_" ++ toString sid ++ "_" ++ toString nextTurn
          let turnRec : TurnRec :=
            ⟨sid, nextTurn, r.sceneText, sceneId, choiceId, customInput,
             updatedSummary⟩
          let st1 := updateSess st sid
            (fun s0 => { s0 with turns := nextTurn, isActive := !isFinished })
          let st2 := { st1 with turnLog := st1.turnLog ++ [turnRec] }
          (.complete outChoices nextTurn maxTurns isFinished r.sceneText
             updatedSummary, st2)

/-! ## Rate limiter (`app/services/rate_limiter.py`) -/

/-- `RateLimiter._cleanup_old_entries`: keep the `(timestamp, count)`
entries with `ts > now - window`. -/
def cleanupOldEntries (entries : List (Int × Nat)) (windowSeconds now : Int) :
    List (Int × Nat) :=
  entries.filter (fun e => now - windowSeconds < e.1)

/-- `min(ts for ts, _ in entries)` (0 on the empty list, which the guards
make unreachable). -/
def minTs : List (Int × Nat) → Int
  | [] => 0
  | [e] => e.1
  | e :: e' :: rest => min e.1 (minTs (e' :: rest))

/-- `min(entries)` for plain timestamp lists. -/
def minI : List Int → Int
  | [] => 0
  | [t] => t
  | t :: t' :: rest => min t (minI (t' :: rest))

/-- `RateLimiter.check_session_rate_limit` for one key, acting on that key's
stored entry list.  Returns `(is_allowed, retry_after, stored entries after
the call)`.  The hourly policy is 20 requests per 3600 s and the daily
policy 100 per 86400 s; as in the source, the daily window is evaluated on
the list already pruned to the hourly window, and the pruned-plus-appended
list is written back only on the allow path. -/
def checkSessionRateLimit (stored : List (Int × Nat)) (now : Int) :
    Bool × Option Int × List (Int × Nat) :=
  let entries := cleanupOldEntries stored 3600 now
  if 20 ≤ entries.length then
    (false, some (minTs entries + 3600 - now), stored)
  else
    let dailyEntries := cleanupOldEntries entries 86400 now
    if 100 ≤ dailyEntries.length then
      (false, some (minTs dailyEntries + 86400 - now), stored)
    else
      (true, none, entries ++ [(now, 1)])

/-- `RateLimiter.check_custom_input_rate_limit` for one key: 5 requests per
600 s over plain timestamps. -/
def checkCustomInputRateLimit (stored : List Int) (now : Int) :
    Bool × Option Int × List Int :=
  let entries := stored.filter (fun ts => now - 600 < ts)
  if 5 ≤ entries.length then
    (false, some (minI entries + 600 - now), stored)
  else
    (true, none, entries ++ [now])

/-! ## Helper lemmas -/

/-- The sentiment threshold constant of the model is the exact value of
the source literal `-0.3`. -/
theorem threshold_eq_div : mkRat (-3) 10 = -(3/10 : ℚ) := by
  norm_num [Rat.mkRat_eq_div]

/-- The score `analyzeSentiment` computes from the tenths-scaled lexicons
is exactly the `score / word_count` of the source (whose weight sum is
`a / 10`). -/
theorem analyzeSentiment_div_repr (a : Int) (c : Nat) :
    mkRat a (10 * c) = ((a : ℚ) / 10) / (c : ℚ) := by
  rw [Rat.mkRat_eq_div]
  push_cast
  rw [div_div]

/-- Cleanup never lengthens an entry list. -/
theorem cleanupOldEntries_length_le (entries : List (Int × Nat)) (w now : Int) :
    (cleanupOldEntries entries w now).length ≤ entries.length :=
  List.length_filter_le _ _

/-! ## Claim C2 -/

/-- Claim C2 (refuted; the theorem documents the actual behaviour): the
daily 100-per-24h session policy can never cause a denial.  First, a key
with 100 requests 2 hours old and none in the last hour is allowed (the
claim says it must be denied); second, every denial of
`checkSessionRateLimit` already violates the hourly policy, because the
daily window is evaluated on the hourly-pruned list, whose length is below
20 on the daily branch. -/
theorem claim_C2_daily_cap_unreachable :
    checkSessionRateLimit (List.replicate 100 ((0 : Int), (1 : Nat))) 7200 =
      (true, none, [((7200 : Int), (1 : Nat))]) ∧
    ∀ (stored : List (Int × Nat)) (now : Int),
      (checkSessionRateLimit stored now).1 = false →
      20 ≤ (cleanupOldEntries stored 3600 now).length := by
  constructor
  · decide
  · intro stored now h
    by_cases h20 : 20 ≤ (cleanupOldEntries stored 3600 now).length
    · exact h20
    · exfalso
      have hlen : (cleanupOldEntries (cleanupOldEntries stored 3600 now) 86400 now).length < 100 := by
        have := cleanupOldEntries_length_le (cleanupOldEntries stored 3600 now) 86400 now
        omega
      simp only [checkSessionRateLimit, h20, if_false] at h
      rw [if_neg (by omega)] at h
      simp at h

/-- Witness instantiating the hypothesis of `claim_C2_daily_cap_unreachable`:
a denied key (20 fresh entries) indeed violates the hourly window. -/
theorem claim_C2_daily_cap_unreachable_witness :
    (checkSessionRateLimit (List.replicate 20 ((0 : Int), (1 : Nat))) 100).1 = false ∧
    20 ≤ (cleanupOldEntries (List.replicate 20 ((0 : Int), (1 : Nat))) 3600 100).length :=
  ⟨by decide,
   claim_C2_daily_cap_unreachable.2 (List.replicate 20 ((0 : Int), (1 : Nat))) 100 (by decide)⟩

/-! ## Claim C9 -/

/-- Claim C9: a denied rate-limit check leaves the stored entry list for the
key unchanged (no entry appended, no pruning persisted), for both the
session check and the custom-input check; pruning plus the new entry are
written back only on the allow path. -/
theorem claim_C9_denial_leaves_state_unchanged :
    (∀ (stored : List (Int × Nat)) (now : Int),
      (checkSessionRateLimit stored now).1 = false →
      (checkSessionRateLimit stored now).2.2 = stored) ∧
    (∀ (stored : List (Int × Nat)) (now : Int),
      (checkSessionRateLimit stored now).1 = true →
      (checkSessionRateLimit stored now).2.2 =
        cleanupOldEntries stored 3600 now ++ [(now, 1)]) ∧
    (∀ (stored : List Int) (now : Int),
      (checkCustomInputRateLimit stored now).1 = false →
      (checkCustomInputRateLimit stored now).2.2 = stored) ∧
    (∀ (stored : List Int) (now : Int),
      (checkCustomInputRateLimit stored now).1 = true →
      (checkCustomInputRateLimit stored now).2.2 =
        stored.filter (fun ts => now - 600 < ts) ++ [now]) := by
  refine ⟨?_, ?_, ?_, ?_⟩
  · intro stored now h
    simp only [checkSessionRateLimit] at h ⊢
    by_cases h1 : 20 ≤ (cleanupOldEntries stored 3600 now).length
    · simp [h1]
    · by_cases h2 :
        100 ≤ (cleanupOldEntries (cleanupOldEntries stored 3600 now) 86400 now).length
      · simp [h1, h2]
      · simp [h1, h2] at h
  · intro stored now h
    simp only [checkSessionRateLimit] at h ⊢
    by_cases h1 : 20 ≤ (cleanupOldEntries stored 3600 now).length
    · simp [h1] at h
    · by_cases h2 :
        100 ≤ (cleanupOldEntries (cleanupOldEntries stored 3600 now) 86400 now).length
      · simp [h1, h2] at h
      · simp [h1, h2]
  · intro stored now h
    simp only [checkCustomInputRateLimit] at h ⊢
    by_cases h1 : 5 ≤ (stored.filter (fun ts => now - 600 < ts)).length
    · simp [h1]
    · simp [h1] at h
  · intro stored now h
    simp only [checkCustomInputRateLimit] at h ⊢
    by_cases h1 : 5 ≤ (stored.filter (fun ts => now - 600 < ts)).length
    · simp [h1] at h
    · simp [h1]

/-- Witness instantiating `claim_C9_denial_leaves_state_unchanged` at
concrete denied and allowed inputs. -/
theorem claim_C9_denial_leaves_state_unchanged_witness :
    ((checkSessionRateLimit (List.replicate 20 ((0 : Int), (1 : Nat))) 50).1 = false ∧
      (checkSessionRateLimit (List.replicate 20 ((0 : Int), (1 : Nat))) 50).2.2 =
        List.replicate 20 ((0 : Int), (1 : Nat))) ∧
    ((checkCustomInputRateLimit (List.replicate 5 (0 : Int)) 50).1 = false ∧
      (checkCustomInputRateLimit (List.replicate 5 (0 : Int)) 50).2.2 =
        List.replicate 5 (0 : Int)) :=
  ⟨⟨by decide, claim_C9_denial_leaves_state_unchanged.1
      (List.replicate 20 ((0 : Int), (1 : Nat))) 50 (by decide)⟩,
   ⟨by decide, claim_C9_denial_leaves_state_unchanged.2.2.1
      (List.replicate 5 (0 : Int)) 50 (by decide)⟩⟩

/-! ## Retry-loop lemmas -/

/-- If every response the backend returns is invalid, the loop exhausts all
its attempts and falls back. -/
theorem retryGo_allbad (validf : LLMStoryResponse → Bool)
    (backend : Nat → LLMAttempt) (theme : String)
    (hbad : ∀ j r, backend j = .returns r → validf r = false) :
    ∀ fuel i, (retryGo validf backend theme fuel i).1 = fallbackLLMResponse theme ∧
      (retryGo validf backend theme fuel i).2.2 = fuel := by
  intro fuel
  induction fuel with
  | zero => intro i; simp [retryGo]
  | succ f ih =>
    intro i
    cases hb : backend i with
    | returns r =>
      have hv := hbad i r hb
      by_cases hf : f = 0
      · subst hf; simp [retryGo, hb, hv]
      · simp only [retryGo, hb, hv, Bool.false_eq_true, if_false, beq_iff_eq, hf]
        exact ⟨(ih (i + 1)).1, by rw [(ih (i + 1)).2]⟩
    | throws =>
      by_cases hf : f = 0
      · subst hf; simp [retryGo, hb]
      · simp only [retryGo, hb, beq_iff_eq, hf, if_false]
        exact ⟨(ih (i + 1)).1, by rw [(ih (i + 1)).2]⟩

/-- If the backend never raises, no backoff wait ever happens, whatever the
validation verdicts are. -/
theorem retryGo_nothrow (validf : LLMStoryResponse → Bool)
    (backend : Nat → LLMAttempt) (theme : String)
    (hnt : ∀ j, backend j ≠ .throws) :
    ∀ fuel i, (retryGo validf backend theme fuel i).2.1 = [] := by
  intro fuel
  induction fuel with
  | zero => intro i; simp [retryGo]
  | succ f ih =>
    intro i
    cases hb : backend i with
    | throws => exact absurd hb (hnt i)
    | returns r =>
      by_cases hv : validf r
      · simp [retryGo, hb, hv]
      · by_cases hf : f = 0
        · subst hf; simp [retryGo, hb, hv]
        · simp only [retryGo, hb, hv, Bool.false_eq_true, if_false, beq_iff_eq, hf]
          exact ih (i + 1)

/-- If the backend raises on every attempt, the loop exhausts its attempts,
waiting `2 ^ k` seconds after every attempt except the last. -/
theorem retryGo_allthrows (validf : LLMStoryResponse → Bool)
    (backend : Nat → LLMAttempt) (theme : String)
    (hth : ∀ j, backend j = .throws) :
    ∀ fuel i, retryGo validf backend theme fuel i =
      (fallbackLLMResponse theme,
       (List.range (fuel - 1)).map (fun k => 2 ^ (i + k)), fuel) := by
  intro fuel
  induction fuel with
  | zero => intro i; simp [retryGo]
  | succ f ih =>
    intro i
    by_cases hf : f = 0
    · subst hf; simp [retryGo, hth i]
    · simp only [retryGo, hth i, beq_iff_eq, hf, if_false, ih (i + 1)]
      refine Prod.ext rfl (Prod.ext ?_ rfl)
      show 2 ^ i :: (List.range (f - 1)).map (fun k => 2 ^ (i + 1 + k)) =
        (List.range (f + 1 - 1)).map (fun k => 2 ^ (i + k))
      obtain ⟨m, rfl⟩ : ∃ m, f = m + 1 := ⟨f - 1, by omega⟩
      rw [Nat.add_sub_cancel, Nat.add_sub_cancel, List.range_succ_eq_map]
      simp only [List.map_cons, List.map_map, Nat.add_zero]
      refine congrArg (2 ^ i :: ·) (List.map_congr_left ?_)
      intro k _
      simp only [Function.comp_apply]
      rw [show i + 1 + k = i + (k + 1) from by omega]

/-- The first executed attempt that returns a valid response is returned as
is, with no further attempts: if the `j` attempts before it neither return
a valid response, attempt `j` (0-based, within the budget) returning valid
`r` makes the loop stop with `r` after exactly `j + 1` backend calls. -/
theorem retryGo_firstvalid (validf : LLMStoryResponse → Bool)
    (backend : Nat → LLMAttempt) (theme : String) :
    ∀ (j fuel i : Nat) (r : LLMStoryResponse), j < fuel →
      (∀ k, k < j → ∀ r', backend (i + k) = .returns r' → validf r' = false) →
      backend (i + j) = .returns r → validf r = true →
      (retryGo validf backend theme fuel i).1 = r ∧
        (retryGo validf backend theme fuel i).2.2 = j + 1 := by
  intro j
  induction j with
  | zero =>
    intro fuel i r hlt _hk hb hv
    obtain ⟨f, rfl⟩ : ∃ f, fuel = f + 1 := ⟨fuel - 1, by omega⟩
    rw [Nat.add_zero] at hb
    simp [retryGo, hb, hv]
  | succ j ih =>
    intro fuel i r hlt hk hb hv
    obtain ⟨f, rfl⟩ : ∃ f, fuel = f + 1 := ⟨fuel - 1, by omega⟩
    have hf : f ≠ 0 := by omega
    have step : (retryGo validf backend theme f (i + 1)).1 = r ∧
        (retryGo validf backend theme f (i + 1)).2.2 = j + 1 := by
      refine ih f (i + 1) r (by omega) ?_ ?_ hv
      · intro k hkj r' hb'
        exact hk (k + 1) (by omega) r' (by rwa [show i + (k + 1) = i + 1 + k from by omega])
      · rwa [show i + 1 + j = i + (j + 1) from by omega]
    cases hb0 : backend i with
    | returns r0 =>
      have hv0 := hk 0 (by omega) r0 (by rwa [Nat.add_zero])
      simp only [retryGo, hb0, hv0, Bool.false_eq_true, if_false, beq_iff_eq, hf]
      exact ⟨step.1, by rw [step.2]⟩
    | throws =>
      by_cases hf0 : f = 0
      · omega
      · simp only [retryGo, hb0, beq_iff_eq, hf0, if_false]
        exact ⟨step.1, by rw [step.2]⟩

/-! ## Claim C3 -/

/-- Claim C3: (1) if every response the backend returns fails
`validate_llm_output`, the engine makes exactly `maxRetries` attempts and
returns the theme fallback; (2) a first valid response (0-based attempt `j`
within the budget, all earlier returned responses invalid) is returned
immediately after `j + 1` backend calls; (3) if every attempt raises, the
fallback is returned; (4) under (1), the turn that `continue_story`
persists carries the fallback scene and summary. -/
theorem claim_C3_retry_fallback_and_first_valid :
    (∀ (backend : Nat → LLMAttempt) (n : Nat) (theme : String),
      (∀ j r, backend j = .returns r → validLLM r = false) →
      (callLLMWithRetry validLLM backend n theme).1 = fallbackLLMResponse theme ∧
        (callLLMWithRetry validLLM backend n theme).2.2 = n) ∧
    (∀ (backend : Nat → LLMAttempt) (n : Nat) (theme : String) (j : Nat)
        (r : LLMStoryResponse), j < n →
      (∀ k, k < j → ∀ r', backend k = .returns r' → validLLM r' = false) →
      backend j = .returns r → validLLM r = true →
      (callLLMWithRetry validLLM backend n theme).1 = r ∧
        (callLLMWithRetry validLLM backend n theme).2.2 = j + 1) ∧
    (∀ (backend : Nat → LLMAttempt) (n : Nat) (theme : String),
      (∀ j, backend j = .throws) →
      (callLLMWithRetry validLLM backend n theme).1 = fallbackLLMResponse theme) ∧
    (∀ (cfg : FilterCfg) (backend : Nat → LLMAttempt) (n maxT : Nat)
        (st : Store) (sid : Nat) (s : Sess) (cid summary : String),
      (∀ j r, backend j = .returns r → validLLM r = false) →
      lookupSess st sid = some s → s.isActive = true → s.turns < maxT →
      cid ≠ "" →
      ((continueStory cfg backend n maxT st sid (some cid) none none summary).2.1).turnLog =
        st.turnLog ++
          [⟨sid, s.turns + 1, (fallbackLLMResponse s.theme).sceneText,
            "scene_" ++ toString sid ++ "_" ++ toString (s.turns + 1), some cid,
            none, (fallbackLLMResponse s.theme).storySummaryUpdate⟩]) := by
  refine ⟨?_, ?_, ?_, ?_⟩
  · intro backend n theme hbad
    exact retryGo_allbad validLLM backend theme hbad n 0
  · intro backend n theme j r hj hk hb hv
    have := retryGo_firstvalid validLLM backend theme j n 0 r hj
      (by intro k hkj r' hb'; exact hk k hkj r' (by rwa [Nat.zero_add] at hb'))
      (by rwa [Nat.zero_add]) hv
    exact this
  · intro backend n theme hth
    have := retryGo_allthrows validLLM backend theme hth n 0
    simp only [callLLMWithRetry, this]
  · intro cfg backend n maxT st sid s cid summary hbad hlook hA hT hcid
    have hfb := retryGo_allbad validLLM backend s.theme hbad n 0
    simp only [continueStory, hlook, hA, Bool.true_eq_false, if_false, not_le.mpr hT,
      if_neg (not_le.mpr hT), optTruthy, Bool.not_eq_true']
    rw [if_neg (by simp)]
    rw [if_pos (by simp [hcid])]
    simp only [callLLMWithRetry] at hfb ⊢
    simp [updateSess, hfb.1]

/-- Witness instantiating every hypothesis of
`claim_C3_retry_fallback_and_first_valid` at concrete inputs: an
always-invalid backend exhausts 3 attempts into the fallback and persists
it, a first-attempt-valid backend returns its response after one call, and
an always-raising backend falls back. -/
theorem claim_C3_retry_fallback_and_first_valid_witness :
    ((callLLMWithRetry validLLM (fun _ : Nat => LLMAttempt.returns ⟨"scary", [], ""⟩) 3 "space_adventure").1 =
        fallbackLLMResponse "space_adventure" ∧
      (callLLMWithRetry validLLM (fun _ : Nat => LLMAttempt.returns ⟨"scary", [], ""⟩) 3 "space_adventure").2.2 = 3) ∧
    ((callLLMWithRetry validLLM (fun _ : Nat => LLMAttempt.returns ⟨"You smile", ["Play"], "Fun"⟩) 3 "x").1 =
        (⟨"You smile", ["Play"], "Fun"⟩ : LLMStoryResponse) ∧
      (callLLMWithRetry validLLM (fun _ : Nat => LLMAttempt.returns ⟨"You smile", ["Play"], "Fun"⟩) 3 "x").2.2 = 1) ∧
    (callLLMWithRetry validLLM (fun _ : Nat => LLMAttempt.throws) 3 "x").1 = fallbackLLMResponse "x" ∧
    ((continueStory ⟨fun _ => false, false, false, true⟩
        (fun _ : Nat => LLMAttempt.returns ⟨"scary", [], ""⟩) 3 15
        ⟨[⟨1, "Ann", "6-8", "forest", 0, true⟩], []⟩ 1 (some "c1") none none "sum").2.1).turnLog =
      [⟨1, 1, (fallbackLLMResponse "forest").sceneText, "scene_1_1", some "c1",
        none, (fallbackLLMResponse "forest").storySummaryUpdate⟩] := by
  have hbad : ∀ j r, (fun _ : Nat => LLMAttempt.returns ⟨"scary", [], ""⟩) j = .returns r →
      validLLM r = false := by
    intro j r h
    injection h with h'
    subst h'
    decide
  refine ⟨claim_C3_retry_fallback_and_first_valid.1 _ 3 "space_adventure" hbad,
    claim_C3_retry_fallback_and_first_valid.2.1 _ 3 "x" 0 _ (by omega)
      (by omega) rfl (by decide),
    claim_C3_retry_fallback_and_first_valid.2.2.1 _ 3 "x" (fun _ => rfl), ?_⟩
  have := claim_C3_retry_fallback_and_first_valid.2.2.2
    ⟨fun _ => false, false, false, true⟩ (fun _ => .returns ⟨"scary", [], ""⟩) 3 15
    ⟨[⟨1, "Ann", "6-8", "forest", 0, true⟩], []⟩ 1 ⟨1, "Ann", "6-8", "forest", 0, true⟩
    "c1" "sum" hbad rfl rfl (by decide) (by decide)
  simpa using this

/-! ## Claim C7 -/

/-- Claim C7: a transport failure on 0-based attempt `k` with `k < n - 1`
is followed by a `2 ^ k`-second wait and there is no wait after the last
attempt (an all-raising backend produces exactly the waits
`2 ^ 0, …, 2 ^ (n - 2)`); a backend that never raises causes no wait at
all, however its responses validate; and the concrete
throw/throw/valid-response run makes the waits `1 s` then `2 s` and returns
the third attempt's response after exactly 3 calls. -/
theorem claim_C7_backoff_waits :
    (∀ (backend : Nat → LLMAttempt) (n : Nat) (theme : String),
      (∀ j, backend j = .throws) →
      callLLMWithRetry validLLM backend n theme =
        (fallbackLLMResponse theme, (List.range (n - 1)).map (fun k => 2 ^ k), n)) ∧
    (∀ (backend : Nat → LLMAttempt) (n : Nat) (theme : String),
      (∀ j, backend j ≠ .throws) →
      (callLLMWithRetry validLLM backend n theme).2.1 = []) ∧
    callLLMWithRetry validLLM
        (fun i : Nat => if i == 0 then LLMAttempt.throws
          else if i == 1 then LLMAttempt.throws
          else LLMAttempt.returns ⟨"You smile", ["Play"], "Fun"⟩) 3 "forest" =
      (⟨"You smile", ["Play"], "Fun"⟩, [1, 2], 3) := by
  refine ⟨?_, ?_, by decide⟩
  · intro backend n theme hth
    have := retryGo_allthrows validLLM backend theme hth n 0
    simpa only [callLLMWithRetry, Nat.zero_add] using this
  · intro backend n theme hnt
    exact retryGo_nothrow validLLM backend theme hnt n 0

/-- Witness instantiating the hypotheses of `claim_C7_backoff_waits`: the
all-raising backend with 3 attempts waits 1 s then 2 s, and an
always-invalid (but never-raising) backend produces no waits. -/
theorem claim_C7_backoff_waits_witness :
    callLLMWithRetry validLLM (fun _ : Nat => LLMAttempt.throws) 3 "x" =
      (fallbackLLMResponse "x", [1, 2], 3) ∧
    (callLLMWithRetry validLLM (fun _ : Nat => LLMAttempt.returns ⟨"scary", [], ""⟩) 3 "x").2.1 = [] := by
  constructor
  · have := claim_C7_backoff_waits.1 (fun _ => .throws) 3 "x" (fun _ => rfl)
    simpa using this
  · exact claim_C7_backoff_waits.2.1 (fun _ => .returns ⟨"scary", [], ""⟩) 3 "x"
      (fun j => by simp)

/-! ## Claim C4 -/

/-- Claim C4: `continue_story` on a session that does not exist, is
inactive, or has exhausted its turns fails with an `InvalidState`-class
error, makes no generation-backend call (the call counter is 0), and
returns the store unchanged. -/
theorem claim_C4_invalid_state_guards
    (cfg : FilterCfg) (backend : Nat → LLMAttempt) (nR maxT : Nat)
    (st : Store) (sid : Nat) (cid ctext cin : Option String) (summary : String)
    (h : lookupSess st sid = none ∨
      ∃ s, lookupSess st sid = some s ∧ (s.isActive = false ∨ maxT ≤ s.turns)) :
    ∃ e, continueStory cfg backend nR maxT st sid cid ctext cin summary =
      (.error e, st, 0) ∧ isInvalidState e = true := by
  rcases h with hnone | ⟨s, hs, hcase⟩
  · exact ⟨.sessionNotFound, by simp [continueStory, hnone], rfl⟩
  · by_cases hA : s.isActive = false
    · exact ⟨.sessionInactive, by simp [continueStory, hs, hA], rfl⟩
    · have hA' : s.isActive = true := by
        cases hval : s.isActive
        · exact absurd hval hA
        · rfl
      rcases hcase with hinact | hmax
      · exact absurd hinact hA
      · exact ⟨.maxTurnsReached,
          by simp [continueStory, hs, hA', hmax], rfl⟩

/-- Witness instantiating `claim_C4_invalid_state_guards` on all three
guard situations: an empty store (unknown session), an inactive session,
and an exhausted session. -/
theorem claim_C4_invalid_state_guards_witness :
    (∃ e, continueStory ⟨fun _ => false, false, false, true⟩
        (fun _ : Nat => LLMAttempt.throws) 3 15 ⟨[], []⟩ 1
        (some "c1") none none "s" = (.error e, ⟨[], []⟩, 0) ∧
      isInvalidState e = true) ∧
    (∃ e, continueStory ⟨fun _ => false, false, false, true⟩
        (fun _ : Nat => LLMAttempt.throws) 3 15
        ⟨[⟨1, "Ann", "6-8", "forest", 2, false⟩], []⟩ 1
        (some "c1") none none "s" =
        (.error e, ⟨[⟨1, "Ann", "6-8", "forest", 2, false⟩], []⟩, 0) ∧
      isInvalidState e = true) ∧
    (∃ e, continueStory ⟨fun _ => false, false, false, true⟩
        (fun _ : Nat => LLMAttempt.throws) 3 15
        ⟨[⟨1, "Ann", "6-8", "forest", 15, true⟩], []⟩ 1
        (some "c1") none none "s" =
        (.error e, ⟨[⟨1, "Ann", "6-8", "forest", 15, true⟩], []⟩, 0) ∧
      isInvalidState e = true) :=
  ⟨claim_C4_invalid_state_guards _ _ 3 15 _ 1 _ none none "s" (Or.inl rfl),
   claim_C4_invalid_state_guards _ _ 3 15 _ 1 _ none none "s"
     (Or.inr ⟨_, rfl, Or.inl rfl⟩),
   claim_C4_invalid_state_guards _ _ 3 15 _ 1 _ none none "s"
     (Or.inr ⟨_, rfl, Or.inr (by decide)⟩)⟩

/-! ## Claim C1 -/

/-- Looking a session up after an id-preserving update sees the updated
row. -/
theorem lookupSess_update (st : Store) (sid : Nat) (f : Sess → Sess)
    (hf : ∀ s, (f s).sid = s.sid) :
    lookupSess (updateSess st sid f) sid = (lookupSess st sid).map f := by
  show List.find? _ (st.sessions.map _) = (List.find? _ st.sessions).map f
  induction st.sessions with
  | nil => rfl
  | cons a l ih =>
    by_cases ha : (a.sid == sid) = true
    · rw [List.map_cons, if_pos ha, List.find?_cons, List.find?_cons,
        show ((f a).sid == sid) = true from by rw [hf a]; exact ha, ha]
      rfl
    · rw [List.map_cons, if_neg ha, List.find?_cons, List.find?_cons,
        show (a.sid == sid) = false from by simpa using ha]
      exact ih

/-- `mkChoices` is empty exactly on the empty generated-choice list. -/
theorem mkChoices_eq_nil (cs : List String) : mkChoices cs = [] ↔ cs = [] := by
  simp [mkChoices]

/-- Claim C1: a successful streamed continue on an active session with
`turn < maxTurns` bumps the stored turn counter by one, deactivates the
session iff the new turn equals `maxTurns`, reports `isFinished` the same
way, and returns an empty choice list iff this was the final turn (on a
non-final turn, one `Choice` per generated choice text). -/
theorem claim_C1_stream_continue
    (st : Store) (maxT sid : Nat) (cid ctext cin : Option String)
    (summary : String) (r : LLMStoryResponse) (s : Sess)
    (hlook : lookupSess st sid = some s) (hA : s.isActive = true)
    (hT : s.turns < maxT) :
    ∃ cs fin summ s',
      (continueStoryStream st maxT sid cid ctext cin summary (some r)).1 =
        .complete cs (s.turns + 1) maxT fin r.sceneText summ ∧
      lookupSess (continueStoryStream st maxT sid cid ctext cin summary (some r)).2 sid =
        some s' ∧
      s'.turns = s.turns + 1 ∧
      (s'.isActive = false ↔ s.turns + 1 = maxT) ∧
      (fin = true ↔ s.turns + 1 = maxT) ∧
      (r.choices ≠ [] → (cs = [] ↔ s.turns + 1 = maxT)) ∧
      (s.turns + 1 ≠ maxT → cs = mkChoices r.choices) := by
  have hnl : ¬ maxT ≤ s.turns := not_le.mpr hT
  refine ⟨if s.turns + 1 < maxT && !r.choices.isEmpty then mkChoices r.choices else [],
    decide (maxT ≤ s.turns + 1),
    orElseStr r.storySummaryUpdate (orElseStr summary ""),
    ⟨s.sid, s.playerName, s.ageRange, s.theme, s.turns + 1,
      !(decide (maxT ≤ s.turns + 1))⟩,
    ?_, ?_, rfl, ?_, ?_, ?_, ?_⟩
  · simp [continueStoryStream, hlook, hA, hnl]
  · have hsess : ((continueStoryStream st maxT sid cid ctext cin summary (some r)).2).sessions =
        (updateSess st sid (fun s0 =>
          ⟨s0.sid, s0.playerName, s0.ageRange, s0.theme, s.turns + 1,
            !(decide (maxT ≤ s.turns + 1))⟩)).sessions := by
      simp [continueStoryStream, hlook, hA, hnl, updateSess]
    show List.find? _ _ = _
    rw [show ((continueStoryStream st maxT sid cid ctext cin summary (some r)).2).sessions =
      (updateSess st sid (fun s0 =>
        ⟨s0.sid, s0.playerName, s0.ageRange, s0.theme, s.turns + 1,
          !(decide (maxT ≤ s.turns + 1))⟩)).sessions from hsess]
    have := lookupSess_update st sid (fun s0 =>
      ⟨s0.sid, s0.playerName, s0.ageRange, s0.theme, s.turns + 1,
        !(decide (maxT ≤ s.turns + 1))⟩) (fun _ => rfl)
    rw [show List.find? (fun s0 => s0.sid == sid)
        (updateSess st sid (fun s0 =>
          ⟨s0.sid, s0.playerName, s0.ageRange, s0.theme, s.turns + 1,
            !(decide (maxT ≤ s.turns + 1))⟩)).sessions =
        lookupSess (updateSess st sid (fun s0 =>
          ⟨s0.sid, s0.playerName, s0.ageRange, s0.theme, s.turns + 1,
            !(decide (maxT ≤ s.turns + 1))⟩)) sid from rfl, this, hlook]
    rfl
  · show (!(decide (maxT ≤ s.turns + 1))) = false ↔ s.turns + 1 = maxT
    cases hd : decide (maxT ≤ s.turns + 1) with
    | true =>
      have hle := of_decide_eq_true hd
      simp only [Bool.not_true]
      exact ⟨fun _ => by omega, fun _ => trivial⟩
    | false =>
      have hgt := of_decide_eq_false hd
      simp only [Bool.not_false]
      exact ⟨fun hcontra => Bool.noConfusion hcontra, fun heq => absurd heq (by omega)⟩
  · cases hd : decide (maxT ≤ s.turns + 1) with
    | true =>
      have hle := of_decide_eq_true hd
      exact ⟨fun _ => by omega, fun _ => rfl⟩
    | false =>
      have hgt := of_decide_eq_false hd
      exact ⟨fun hcontra => Bool.noConfusion hcontra, fun heq => absurd heq (by omega)⟩
  · intro hne
    by_cases heq : s.turns + 1 = maxT
    · rw [if_neg (by simp [heq])]
      simp [heq]
    · have hlt : s.turns + 1 < maxT := by omega
      rw [if_pos (by simp [hlt, hne])]
      simp [mkChoices_eq_nil, hne, heq]
  · intro hne
    by_cases hemp : r.choices = []
    · rw [hemp]
      simp [mkChoices]
    · have hlt : s.turns + 1 < maxT := by omega
      rw [if_pos (by simp [hlt, hemp])]

/-- Witness instantiating `claim_C1_stream_continue` at a concrete final
turn: one active session at turn 0 with `maxTurns = 1`. -/
theorem claim_C1_stream_continue_witness :
    ∃ cs fin summ s',
      (continueStoryStream ⟨[⟨1, "Ann", "6-8", "forest", 0, true⟩], []⟩ 1 1
          (some "c1") none none "sum" (some ⟨"You smile", ["A", "B"], "Fun"⟩)).1 =
        .complete cs (0 + 1) 1 fin "You smile" summ ∧
      lookupSess (continueStoryStream ⟨[⟨1, "Ann", "6-8", "forest", 0, true⟩], []⟩ 1 1
          (some "c1") none none "sum" (some ⟨"You smile", ["A", "B"], "Fun"⟩)).2 1 =
        some s' ∧
      s'.turns = 0 + 1 ∧
      (s'.isActive = false ↔ 0 + 1 = 1) ∧
      (fin = true ↔ 0 + 1 = 1) ∧
      ((["A", "B"] : List String) ≠ [] → (cs = [] ↔ 0 + 1 = 1)) ∧
      (0 + 1 ≠ 1 → cs = mkChoices ["A", "B"]) :=
  claim_C1_stream_continue ⟨[⟨1, "Ann", "6-8", "forest", 0, true⟩], []⟩ 1 1
    (some "c1") none none "sum" ⟨"You smile", ["A", "B"], "Fun"⟩
    ⟨1, "Ann", "6-8", "forest", 0, true⟩ rfl rfl (by decide)

/-! ## Claim C5 -/

/-- Counterexample to claim C5: `kill` is a banned word, yet the scene text
`They kill, then flee` — where the banned word is followed by a comma —
passes `validate_llm_output` unflagged, because the scan only finds a
banned word surrounded by spaces (or at the very start or end of the
text), not at a punctuation boundary. -/
theorem claim_C5_counterexample_punctuation_miss :
    "kill" ∈ bannedWords ∧
    validateLLMOutput "They kill, then flee" ["Smile at the sky"] none false false =
      none := by
  constructor
  · decide
  · decide

/-- Claim C5, amended: `validate_llm_output` scans the scene text and then
each choice independently with a space-delimited banned-word test
(`hitW`: the word surrounded by spaces inside the space-padded lowercased
text, or the text starting or ending with the word), and any hit makes the
output invalid; a banned word adjacent to punctuation is not detected, so
`They kill, then flee` validates. -/
theorem claim_C5_amended_space_delimited_scan :
    (∀ (scene : String) (choices : List String) (age : Option String)
        (um mf : Bool),
      (firstHit bannedWords (lowerStr scene)).isSome = true →
      (validateLLMOutput scene choices age um mf).isSome = true) ∧
    (∀ (scene : String) (choices : List String) (age : Option String)
        (um mf : Bool) (c : String), c ∈ choices →
      (firstHit bannedWords (lowerStr c)).isSome = true →
      (validateLLMOutput scene choices age um mf).isSome = true) ∧
    validateLLMOutput "They kill, then flee" ["Smile at the sky"] none false false =
      none := by
  refine ⟨?_, ?_, by decide⟩
  · intro scene choices age um mf h
    cases hx : firstHit bannedWords (lowerStr scene) with
    | none => rw [hx] at h; exact Bool.noConfusion h
    | some w => simp [validateLLMOutput, hx]
  · intro scene choices age um mf c hc h
    cases hx : firstHit bannedWords (lowerStr scene) with
    | some w => simp [validateLLMOutput, hx]
    | none =>
      cases hch : choiceHit choices with
      | some w => simp [validateLLMOutput, hx, hch]
      | none =>
        exfalso
        have hall := List.findSome?_eq_none_iff.mp hch c hc
        rw [hall] at h
        exact Bool.noConfusion h

/-- Witness instantiating `claim_C5_amended_space_delimited_scan` at
concrete space-delimited hits in the scene and in a choice. -/
theorem claim_C5_amended_space_delimited_scan_witness :
    (validateLLMOutput "You see a scary monster in the dark forest"
      ["Run away", "Hide", "Talk"] none false false).isSome = true ∧
    (validateLLMOutput "You are in a peaceful meadow"
      ["Fight the dragon", "Rest", "Explore"] none false false).isSome = true :=
  ⟨claim_C5_amended_space_delimited_scan.1
      "You see a scary monster in the dark forest" ["Run away", "Hide", "Talk"]
      none false false (by decide),
   claim_C5_amended_space_delimited_scan.2.1 "You are in a peaceful meadow"
      ["Fight the dragon", "Rest", "Explore"] none false false
      "Fight the dragon" (by decide) (by decide)⟩

/-! ## Claim C6 -/

/-- Counterexample to claim C6: a continue request carrying both
`choice_id = "c1"` and the (filter-passing) `custom_input = "wave hello"`
persists a turn with BOTH the chosen-action reference and the free-text
action set, refuting the claimed exactly-one invariant. -/
theorem claim_C6_counterexample_both_actions_persisted :
    ((continueStory ⟨fun _ => false, false, false, true⟩
        (fun _ : Nat => LLMAttempt.returns ⟨"You smile", ["Play"], "Fun"⟩) 3 15
        ⟨[⟨1, "Ann", "6-8", "forest", 0, true⟩], []⟩ 1
        (some "c1") (some "Go") (some "wave hello") "sum").2.1).turnLog =
      [⟨1, 1, "You smile", "scene_1_1", some "c1", some "wave hello", "Fun"⟩] := by
  decide

/-- Claim C6, amended: turn 0 is persisted with neither a chosen-action
reference nor a free-text action; every successful continue persists the
request's `choice_id` and `custom_input` verbatim on the new turn (turn
number ≥ 1) — so exactly one of the two fields is set when the request
supplies exactly one, but a request supplying both gets both persisted. -/
theorem claim_C6_amended_turn_action_fields :
    (∀ (backend : Nat → LLMAttempt) (n : Nat) (st : Store) (sid : Nat)
        (pn ar th : String),
      ∃ t, ((startStory backend n st sid pn ar th).2.1).turnLog =
          st.turnLog ++ [t] ∧
        t.playerChoice = none ∧ t.customInput = none ∧ t.turnNumber = 0) ∧
    (∀ (cfg : FilterCfg) (backend : Nat → LLMAttempt) (nR maxT : Nat)
        (st : Store) (sid : Nat) (cid ctext cin : Option String)
        (summary : String) (resp : StoryResp) (st' : Store) (calls : Nat),
      continueStory cfg backend nR maxT st sid cid ctext cin summary =
        (.ok resp, st', calls) →
      ∃ t, st'.turnLog = st.turnLog ++ [t] ∧
        t.playerChoice = cid ∧ t.customInput = cin ∧ 1 ≤ t.turnNumber) := by
  constructor
  · intro backend n st sid pn ar th
    exact ⟨_, rfl, rfl, rfl, rfl⟩
  · intro cfg backend nR maxT st sid cid ctext cin summary resp st' calls h
    cases hlook : lookupSess st sid with
    | none =>
      simp only [continueStory, hlook] at h
      exact Except.noConfusion (congrArg Prod.fst h)
    | some s =>
      simp only [continueStory, hlook] at h
      by_cases hA : s.isActive = false
      · rw [if_pos hA] at h
        exact Except.noConfusion (congrArg Prod.fst h)
      · rw [if_neg hA] at h
        by_cases hM : maxT ≤ s.turns
        · rw [if_pos hM] at h
          exact Except.noConfusion (congrArg Prod.fst h)
        · rw [if_neg hM] at h
          by_cases hci : optTruthy cin = true
          · rw [if_pos hci] at h
            cases hf : (filterUserInput cfg [] (cin.getD "") none).1 with
            | rejected reason =>
              rw [hf] at h
              exact Except.noConfusion (congrArg Prod.fst h)
            | accepted sanitized =>
              rw [hf] at h
              have hst : st' = { updateSess st sid
                  (fun s0 => { s0 with turns := s.turns + 1 }) with
                turnLog := st.turnLog ++
                  [⟨sid, s.turns + 1,
                    (callLLMWithRetry validLLM backend nR s.theme).1.sceneText,
                    "scene_" ++ toString sid ++ "_" ++ toString (s.turns + 1),
                    cid, cin,
                    (callLLMWithRetry validLLM backend nR s.theme).1.storySummaryUpdate⟩] } := by
                have := congrArg Prod.fst (congrArg Prod.snd h)
                exact this.symm
              exact ⟨_, by rw [hst], rfl, rfl, by show (1 : Nat) ≤ s.turns + 1; omega⟩
          · rw [if_neg hci] at h
            by_cases hch : optTruthy cid = true
            · rw [if_pos hch] at h
              have hst : st' = { updateSess st sid
                  (fun s0 => { s0 with turns := s.turns + 1 }) with
                turnLog := st.turnLog ++
                  [⟨sid, s.turns + 1,
                    (callLLMWithRetry validLLM backend nR s.theme).1.sceneText,
                    "scene_" ++ toString sid ++ "_" ++ toString (s.turns + 1),
                    cid, cin,
                    (callLLMWithRetry validLLM backend nR s.theme).1.storySummaryUpdate⟩] } := by
                have := congrArg Prod.fst (congrArg Prod.snd h)
                exact this.symm
              exact ⟨_, by rw [hst], rfl, rfl, by show (1 : Nat) ≤ s.turns + 1; omega⟩
            · rw [if_neg hch] at h
              exact Except.noConfusion (congrArg Prod.fst h)

/-- Witness instantiating `claim_C6_amended_turn_action_fields` on a
concrete start and a concrete both-fields continue. -/
theorem claim_C6_amended_turn_action_fields_witness :
    (∃ t, ((startStory (fun _ : Nat => LLMAttempt.returns ⟨"You smile", ["Play"], "Fun"⟩)
        3 ⟨[], []⟩ 7 "Ann" "6-8" "forest").2.1).turnLog = ([] : List TurnRec) ++ [t] ∧
      t.playerChoice = none ∧ t.customInput = none ∧ t.turnNumber = 0) ∧
    (∃ t, ((continueStory ⟨fun _ => false, false, false, true⟩
        (fun _ : Nat => LLMAttempt.returns ⟨"You smile", ["Play"], "Fun"⟩) 3 15
        ⟨[⟨1, "Ann", "6-8", "forest", 0, true⟩], []⟩ 1
        (some "c1") (some "Go") (some "wave hello") "sum").2.1).turnLog =
        ([] : List TurnRec) ++ [t] ∧
      t.playerChoice = some "c1" ∧ t.customInput = some "wave hello" ∧
      1 ≤ t.turnNumber) :=
  ⟨claim_C6_amended_turn_action_fields.1 _ 3 ⟨[], []⟩ 7 "Ann" "6-8" "forest",
   claim_C6_amended_turn_action_fields.2 ⟨fun _ => false, false, false, true⟩
     (fun _ : Nat => LLMAttempt.returns ⟨"You smile", ["Play"], "Fun"⟩) 3 15
     ⟨[⟨1, "Ann", "6-8", "forest", 0, true⟩], []⟩ 1
     (some "c1") (some "Go") (some "wave hello") "sum"
     ⟨1, "Fun", "scene_1_1", "You smile", [⟨"c1", "Play"⟩], 1⟩
     ⟨[⟨1, "Ann", "6-8", "forest", 1, true⟩],
      [⟨1, 1, "You smile", "scene_1_1", some "c1", some "wave hello", "Fun"⟩]⟩
     1 rfl⟩

/-! ## Claim C8 -/

/-- The sentiment fold ignores words in neither lexicon. -/
theorem foldl_sentimentStep_id (l : List (List Char)) (acc : Int × Nat)
    (h : ∀ w ∈ l, lookupLex negLex ⟨cleanWord w⟩ = none ∧
      lookupLex posLex ⟨cleanWord w⟩ = none) :
    l.foldl sentimentStep acc = acc := by
  induction l generalizing acc with
  | nil => rfl
  | cons w l ih =>
    have hw := h w (List.mem_cons_self w l)
    have hstep : sentimentStep acc w = acc := by
      simp [sentimentStep, hw.1, hw.2]
    rw [List.foldl_cons, hstep]
    exact ih _ (fun x hx => h x (List.mem_cons_of_mem w hx))

/-- Claim C8: a text with no lexicon word scores exactly `0` and passes the
sentiment check; any scene scoring strictly below `-0.3` makes
`validate_llm_output` invalid; a score of exactly `-0.3` passes the strict
comparison (concretely, the scene `sad` scores exactly `-0.3` and
validates). -/
theorem claim_C8_sentiment_threshold :
    (∀ text : String,
      (∀ w ∈ wordsOf text, lookupLex negLex ⟨cleanWord w⟩ = none ∧
        lookupLex posLex ⟨cleanWord w⟩ = none) →
      analyzeSentiment text = 0 ∧ ¬(analyzeSentiment text < -(3/10 : ℚ))) ∧
    (∀ (scene : String) (choices : List String) (age : Option String)
        (um mf : Bool),
      analyzeSentiment scene < -(3/10 : ℚ) →
      (validateLLMOutput scene choices age um mf).isSome = true) ∧
    (∀ scene : String, analyzeSentiment scene = -(3/10 : ℚ) →
      ¬(analyzeSentiment scene < -(3/10 : ℚ))) ∧
    analyzeSentiment "sad" = -(3/10 : ℚ) ∧
    validateLLMOutput "sad" ["Play"] none false false = none := by
  refine ⟨?_, ?_, ?_, ?_, by decide⟩
  · intro text h
    have h0 : analyzeSentiment text = 0 := by
      simp only [analyzeSentiment, foldl_sentimentStep_id _ _ h]
      norm_num
    refine ⟨h0, ?_⟩
    rw [h0]
    norm_num
  · intro scene choices age um mf h
    have h' : analyzeSentiment scene < mkRat (-3) 10 := by
      rw [threshold_eq_div]; exact h
    cases hx : firstHit bannedWords (lowerStr scene) with
    | some w => simp [validateLLMOutput, hx]
    | none =>
      cases hch : choiceHit choices with
      | some w => simp [validateLLMOutput, hx, hch]
      | none => simp [validateLLMOutput, hx, hch, h']
  · intro scene he h
    rw [he] at h
    exact lt_irrefl _ h
  · have hval : analyzeSentiment "sad" = mkRat (-3) 10 := by decide
    rw [hval, threshold_eq_div]

/-- Witness instantiating `claim_C8_sentiment_threshold`: a lexicon-free
text scores `0` and passes, and five lexicon-negative words (average
`-0.4`) are rejected. -/
theorem claim_C8_sentiment_threshold_witness :
    (analyzeSentiment "They journey onward" = 0 ∧
      ¬(analyzeSentiment "They journey onward" < -(3/10 : ℚ))) ∧
    (validateLLMOutput "lonely lonely lonely lonely lonely" ["Play"]
      none false false).isSome = true :=
  ⟨claim_C8_sentiment_threshold.1 "They journey onward" (by decide),
   claim_C8_sentiment_threshold.2.1 "lonely lonely lonely lonely lonely"
     ["Play"] none false false
     (by
       have hval : analyzeSentiment "lonely lonely lonely lonely lonely" =
           mkRat (-2) 5 := by decide
       rw [hval]
       rw [show mkRat (-2) 5 = ((-2 : ℚ) / 5) from by norm_num [Rat.mkRat_eq_div]]
       norm_num)⟩

/-! ## Claim C10 -/

/-- Case analysis of the violation log across one `filter_user_input` call:
it is unchanged, or extended by exactly one violation of a kind among
pattern, banned-word, age-inappropriate and moderation. -/
theorem filterUserInput_log_cases (cfg : FilterCfg) (log : List VRec)
    (text : String) (age : Option String) :
    (filterUserInput cfg log text age).2 = log ∨
    ∃ v, (filterUserInput cfg log text age).2 = log ++ [v] ∧
      (v.vtype = VType.inappropriatePat ∨ v.vtype = VType.bannedWord ∨
       v.vtype = VType.ageInappropriate ∨ v.vtype = VType.moderationApi) := by
  by_cases h1 : text.toList.all Char.isWhitespace = true
  · left
    simp only [filterUserInput]
    rw [if_pos h1]
  · by_cases h2 : 200 < text.length
    · left
      simp only [filterUserInput]
      rw [if_neg h1, if_pos h2]
    · by_cases h3 : cfg.patternHit (stripStr text) = true
      · by_cases hlog : cfg.logViolations = true
        · refine Or.inr ⟨⟨.inappropriatePat, "high"⟩, ?_, Or.inl rfl⟩
          simp only [filterUserInput]
          rw [if_neg h1, if_neg h2, if_pos h3, if_pos hlog]
        · left
          simp only [filterUserInput]
          rw [if_neg h1, if_neg h2, if_pos h3, if_neg hlog]
      · by_cases h4 : (wordsOf (stripStr text)).any
            (fun w => bannedWords.contains (⟨cleanWord w⟩ : String)) = true
        · by_cases hlog : cfg.logViolations = true
          · refine Or.inr ⟨⟨.bannedWord, "high"⟩, ?_, Or.inr (Or.inl rfl)⟩
            simp only [filterUserInput]
            rw [if_neg h1, if_neg h2, if_neg h3, if_pos h4, if_pos hlog]
          · left
            simp only [filterUserInput]
            rw [if_neg h1, if_neg h2, if_neg h3, if_pos h4, if_neg hlog]
        · cases age with
          | none =>
            by_cases h6 : (cfg.useModeration && cfg.modFlagged) = true
            · by_cases hlog : cfg.logViolations = true
              · refine Or.inr ⟨⟨.moderationApi, "high"⟩, ?_,
                  Or.inr (Or.inr (Or.inr rfl))⟩
                simp only [filterUserInput]
                rw [if_neg h1, if_neg h2, if_neg h3, if_neg h4, if_pos h6, if_pos hlog]
              · left
                simp only [filterUserInput]
                rw [if_neg h1, if_neg h2, if_neg h3, if_neg h4, if_pos h6, if_neg hlog]
            · left
              simp only [filterUserInput]
              rw [if_neg h1, if_neg h2, if_neg h3, if_neg h4, if_neg h6]
          | some a =>
            by_cases h5 : ((!(a == "")) && ageKeyKnown a &&
                ageScanHit a (stripStr text)) = true
            · by_cases hlog : cfg.logViolations = true
              · refine Or.inr ⟨⟨.ageInappropriate, "medium"⟩, ?_,
                  Or.inr (Or.inr (Or.inl rfl))⟩
                simp only [filterUserInput]
                rw [if_neg h1, if_neg h2, if_neg h3, if_neg h4, if_pos h5, if_pos hlog]
              · left
                simp only [filterUserInput]
                rw [if_neg h1, if_neg h2, if_neg h3, if_neg h4, if_pos h5, if_neg hlog]
            · by_cases h6 : (cfg.useModeration && cfg.modFlagged) = true
              · by_cases hlog : cfg.logViolations = true
                · refine Or.inr ⟨⟨.moderationApi, "high"⟩, ?_,
                    Or.inr (Or.inr (Or.inr rfl))⟩
                  simp only [filterUserInput]
                  rw [if_neg h1, if_neg h2, if_neg h3, if_neg h4, if_neg h5, if_pos h6,
                    if_pos hlog]
                · left
                  simp only [filterUserInput]
                  rw [if_neg h1, if_neg h2, if_neg h3, if_neg h4, if_neg h5, if_pos h6,
                    if_neg hlog]
              · left
                simp only [filterUserInput]
                rw [if_neg h1, if_neg h2, if_neg h3, if_neg h4, if_neg h5, if_neg h6]

/-- Claim C10: empty/whitespace-only and over-length rejections never touch
the violation log, even with logging enabled; one input-filter call at most
appends a single violation whose kind is pattern, banned-word,
age-inappropriate or moderation; consequently the `negative_sentiment` and
`too_complex` counts of `get_violation_summary` are never increased by input
filtering, and the summary total counts exactly the logged records. -/
theorem claim_C10_input_rejections_not_logged :
    (∀ (cfg : FilterCfg) (log : List VRec) (text : String) (age : Option String),
      text.toList.all Char.isWhitespace = true →
      (filterUserInput cfg log text age).2 = log) ∧
    (∀ (cfg : FilterCfg) (log : List VRec) (text : String) (age : Option String),
      200 < text.length →
      (filterUserInput cfg log text age).2 = log) ∧
    (∀ (cfg : FilterCfg) (log : List VRec) (text : String) (age : Option String),
      (filterUserInput cfg log text age).2 = log ∨
      ∃ v, (filterUserInput cfg log text age).2 = log ++ [v] ∧
        (v.vtype = VType.inappropriatePat ∨ v.vtype = VType.bannedWord ∨
         v.vtype = VType.ageInappropriate ∨ v.vtype = VType.moderationApi)) ∧
    (∀ (cfg : FilterCfg) (log : List VRec) (text : String) (age : Option String),
      violationSummaryByType ((filterUserInput cfg log text age).2)
          VType.negativeSentiment =
        violationSummaryByType log VType.negativeSentiment ∧
      violationSummaryByType ((filterUserInput cfg log text age).2)
          VType.tooComplex =
        violationSummaryByType log VType.tooComplex) ∧
    (∀ log : List VRec, violationSummaryTotal log = log.length) := by
  refine ⟨?_, ?_, filterUserInput_log_cases, ?_, fun _ => rfl⟩
  · intro cfg log text age h1
    simp only [filterUserInput]
    rw [if_pos h1]
  · intro cfg log text age h2
    by_cases h1 : text.toList.all Char.isWhitespace = true
    · simp only [filterUserInput]
      rw [if_pos h1]
    · simp only [filterUserInput]
      rw [if_neg h1, if_pos h2]
  · intro cfg log text age
    rcases filterUserInput_log_cases cfg log text age with hsame | ⟨v, happ, hty⟩
    · rw [hsame]
      exact ⟨rfl, rfl⟩
    · rw [happ]
      constructor
      · simp only [violationSummaryByType, List.filter_append, List.length_append]
        rcases hty with h | h | h | h <;> simp [h]
      · simp only [violationSummaryByType, List.filter_append, List.length_append]
        rcases hty with h | h | h | h <;> simp [h]

/-- Witness instantiating `claim_C10_input_rejections_not_logged` on a
whitespace-only input and a 300-character input, both with logging
enabled and a non-empty starting log. -/
theorem claim_C10_input_rejections_not_logged_witness :
    (filterUserInput ⟨fun _ => false, false, false, true⟩
        [⟨VType.bannedWord, "high"⟩] "   " none).2 = [⟨VType.bannedWord, "high"⟩] ∧
    (filterUserInput ⟨fun _ => false, false, false, true⟩
        [⟨VType.bannedWord, "high"⟩] ⟨List.replicate 300 'a'⟩ none).2 =
      [⟨VType.bannedWord, "high"⟩] :=
  ⟨claim_C10_input_rejections_not_logged.1 ⟨fun _ => false, false, false, true⟩
      [⟨VType.bannedWord, "high"⟩] "   " none (by decide),
   claim_C10_input_rejections_not_logged.2.1 ⟨fun _ => false, false, false, true⟩
      [⟨VType.bannedWord, "high"⟩] ⟨List.replicate 300 'a'⟩ none (by decide)⟩
